import Mathlib

/-!
Shallow embedding of `src/markdowngenerator/markdowngenerator.py`
(Y. Rong, python-markdown-generator).

The `MarkdownGenerator` object keeps an ordered buffer of text fragments
(`document_data_array`) and a logger; every emission method appends
fragments to the buffer.  We model the observable state as the buffer
together with the sequence of log records (level and message).  The
destination stream (`self.document`) duplicates the buffer content and is
out of scope; `enable_write` only controls that duplication.
-/

/-- Severity levels of the Python `logging` collaborator. -/
inductive LogLevel where
  | debug
  | info
  | warning
  | error
deriving DecidableEq, Repr

/-- Observable state of a `MarkdownGenerator`: the document buffer
`document_data_array` (one entry per appended fragment) and the log
records emitted so far. -/
structure MDState where
  document_data_array : List String
  logs : List (LogLevel × String)
deriving DecidableEq, Repr

/-- `linesep` (markdowngenerator.py line 5): the module sets it to a plain
newline. -/
def linesep : String := "\n"

/-- Entity for one character under Python `html.escape` with the default
`quote=True`: `&`, `<`, `>`, double quote and apostrophe become HTML
entities, all other characters are unchanged. -/
def escapeChar (c : Char) : String :=
  if c = '&' then "&amp;"
  else if c = '<' then "&lt;"
  else if c = '>' then "&gt;"
  else if c = '"' then "&quot;"
  else if c = '\x27' then "&#x27;"
  else String.singleton c

/-- Python `html.escape` with the default `quote=True`.  Python performs
five sequential single-character `str.replace` passes (`&` first); since
every pattern is a single character, none of the five patterns occurs in
any replacement text of an earlier pass, and the `&` characters introduced
by later passes are not re-escaped (the `&` pass already ran), this is
exactly the independent character-wise map. -/
def escape (s : String) : String :=
  String.join (s.data.map escapeChar)

/-- Append one log record (the structured logger collaborator). -/
def logMsg (st : MDState) (lvl : LogLevel) (msg : String) : MDState :=
  { st with logs := st.logs ++ [(lvl, msg)] }

/-- `MarkdownGenerator.writeText` (lines 173-190): appends `text`
(HTML-escaped when `html_escape`) to `document_data_array`.  The optional
synchronous stream write duplicates the fragment and is not modelled. -/
def writeText (st : MDState) (text : String) (html_escape : Bool) : MDState :=
  if html_escape then
    { st with document_data_array := st.document_data_array ++ [escape text] }
  else
    { st with document_data_array := st.document_data_array ++ [text] }

/-- `MarkdownGenerator.writeTextLine` (lines 192-220): with `text = None`
appends the forced-break fragment `"  " + linesep`; otherwise appends the
(optionally escaped) text followed by two spaces and the line separator. -/
def writeTextLine (st : MDState) (text : Option String) (html_escape : Bool) :
    MDState :=
  match text with
  | none =>
      { st with document_data_array := st.document_data_array ++ ["  " ++ linesep] }
  | some t =>
      if html_escape then
        { st with document_data_array :=
            st.document_data_array ++ [escape t ++ "  " ++ linesep] }
      else
        { st with document_data_array :=
            st.document_data_array ++ [t ++ "  " ++ linesep] }

/-- A table cell value as `addTable` distinguishes them with
`isinstance(element, list)`: either a scalar (modelled by its `str()`
rendering) or a list of strings. -/
inductive Cell where
  | scalar : String → Cell
  | listVal : List String → Cell
deriving DecidableEq, Repr

/-- A record of `dictionary_list`: a Python `dict`, modelled as its
key/value pairs in insertion order (Python 3.7+ iteration order). -/
def Record := List (String × Cell)

/-- Python truthiness of an optional-list parameter: `None` and the empty
list are falsy. -/
def truthyList {α : Type} : Option (List α) → Bool
  | none => false
  | some l => !l.isEmpty

/-- Python `str.capitalize` (ASCII range): first character upper-cased,
the rest lower-cased. -/
def pyCapitalize (s : String) : String :=
  match s.data with
  | [] => ""
  | c :: cs => String.mk (c.toUpper :: cs.map Char.toLower)

/-- Python string repetition `s * n`. -/
def repeatStr (s : String) (n : Nat) : String :=
  String.join (List.replicate n s)

/-- One cell of a body row (lines 506-515 and 523-530, identical in both
modes): a list-valued cell opens with `"| "` and then each item is written
escaped (plain `writeText`, escaping on by default) followed by an
unescaped `"<br> "`; a scalar cell is written as `"| <element> "` escaped
per the caller's `html_escape` flag. -/
def writeCell (st : MDState) (html_escape : Bool) : Cell → MDState
  | .scalar s => writeText st ("| " ++ s ++ " ") html_escape
  | .listVal items =>
      items.foldl (fun acc item => writeText (writeText acc item true) "<br> " false)
        (writeText st "| " true)

/-- Error message logged when a row has more elements than headers
(lines 502-504). -/
def rowTooLongMsg : String :=
  "The are more row elements than header names "

/-- Warning logged (before raising) when both table inputs are missing
(line 438). -/
def invalidParamsMsg : String := "Invalid paramaters for generating new table."

/-- Message of the `TypeError` raised when both table inputs are missing
(lines 439-441). -/
def invalidParamsRaiseMsg : String :=
  "Invalid paramaters for generating new table. Use either dictionary list or row_elements."

/-- Debug message when both inputs are supplied (lines 445-448). -/
def bothProvidedMsg : String :=
  "Both row elements and dictionary list provided, using dictionary list as default."

/-- Debug message when header names are supplied (line 451). -/
def headersProvidedMsg : String := "Header names provided. Using them."

/-- Debug message when header names are not supplied (lines 453-456). -/
def noHeaderNamesMsg : String :=
  "No header names provided. Using dictionary attribute names as default. Using none, if row_elements used."

/-- Error logged when iterating the header names raises `TypeError`
(line 477). -/
def invalidHeaderMsg : String := "Invalid header names for table. Not generated:"

/-- Warning logged for an unrecognized alignment value (line 494). -/
def invalidAlignmentMsg : String := "Invalid alignment value in addTable. Using default."

/-- Row-oriented body emission (lines 500-517): a row longer than the
header list is skipped with an error-level log record; otherwise its cells
are emitted and the row is closed with `"|"`. -/
def writeRows (st : MDState) (headerCount : Nat) (html_escape : Bool)
    (rows : List (List Cell)) : MDState :=
  rows.foldl
    (fun acc row =>
      if row.length > headerCount then
        logMsg acc .error rowTooLongMsg
      else
        writeTextLine (row.foldl (fun a c => writeCell a html_escape c) acc)
          (some "|") true)
    st

/-- Record-oriented body emission (lines 522-531): for each record, one
cell per key in the record's own order, no column-count validation, row
closed with `"|"`. -/
def writeDictRows (st : MDState) (html_escape : Bool) (records : List Record) :
    MDState :=
  records.foldl
    (fun acc row =>
      writeTextLine (row.foldl (fun a kv => writeCell a html_escape kv.2) acc)
        (some "|") true)
    st

/-- Header-row cells (lines 470-475): one `"| <header> "` fragment per
header name, capitalized when `capitalize_headers`. -/
def emitHeaderCells (st : MDState) (headers : List String)
    (capitalize_headers : Bool) : MDState :=
  headers.foldl
    (fun acc header =>
      if capitalize_headers then
        writeText acc ("| " ++ pyCapitalize header ++ " ") true
      else
        writeText acc ("| " ++ header ++ " ") true)
    st

/-- Separator row (lines 483-495): one marker cell per header, with the
center marker and a warning-level log record as the fallback for
unrecognized alignment values. -/
def emitSeparator (st : MDState) (alignment : String) (n : Nat) : MDState :=
  if alignment = "left" then
    writeTextLine st (some ("|" ++ repeatStr ":---|" n)) true
  else if alignment = "center" then
    writeTextLine st (some ("|" ++ repeatStr ":---:|" n)) true
  else if alignment = "right" then
    writeTextLine st (some ("|" ++ repeatStr "---:|" n)) true
  else
    writeTextLine (logMsg st .warning invalidAlignmentMsg)
      (some ("|" ++ repeatStr ":---:|" n)) true

/-- Body rows (lines 498-531): row-oriented mode unless
`useDictionaryList` was set. -/
def emitBody (st : MDState) (useDictionaryList : Bool) (n : Nat)
    (row_elements : Option (List (List Cell)))
    (dictionary_list : Option (List Record)) (html_escape : Bool) : MDState :=
  if !useDictionaryList then
    writeRows st n html_escape (row_elements.getD [])
  else
    writeDictRows st html_escape (dictionary_list.getD [])

/-- Emission phase of `addTable` once the header names are resolved to an
iterable list (lines 469-532): header row closed with `"|"`, separator
row, body rows in the selected mode and the trailing blank line. -/
def addTableEmit (st : MDState) (headers : List String)
    (useDictionaryList : Bool) (alignment : String)
    (row_elements : Option (List (List Cell)))
    (dictionary_list : Option (List Record)) (html_escape : Bool)
    (capitalize_headers : Bool) : MDState :=
  writeTextLine
    (emitBody
      (emitSeparator
        (writeTextLine (emitHeaderCells st headers capitalize_headers)
          (some "|") true)
        alignment headers.length)
      useDictionaryList headers.length row_elements dictionary_list html_escape)
    none true

/-- `MarkdownGenerator.addTable` (lines 409-532).  The result pairs the
final state with `some msg` when the call raises `TypeError` to the caller
(only the missing-both-inputs check at lines 436-441 raises; the header
iteration `TypeError` at lines 469-478 is caught and logged).  The
`AttributeError` branch for a first record without `.keys()` (lines
461-468) is unrepresentable here because records are modelled as key/value
lists.  Parameter order and defaults follow the Python signature. -/
def addTable (st : MDState) (header_names : Option (List String))
    (row_elements : Option (List (List Cell))) (alignment : String)
    (dictionary_list : Option (List Record)) (html_escape : Bool)
    (capitalize_headers : Bool) : MDState × Option String :=
  if row_elements.isNone && dictionary_list.isNone then
    (logMsg st .warning invalidParamsMsg, some invalidParamsRaiseMsg)
  else
    -- `useDictionaryList` is set True only in the `row_elements is None`
    -- branch (line 443); it stays False whenever `row_elements` is given.
    let useDictionaryList := row_elements.isNone
    let st :=
      if truthyList row_elements && truthyList dictionary_list then
        logMsg st .debug bothProvidedMsg
      else st
    let useProvidedHeadernames := truthyList header_names
    let st :=
      if useProvidedHeadernames then logMsg st .debug headersProvidedMsg
      else logMsg st .debug noHeaderNamesMsg
    -- Headers
    let st := writeTextLine st none true
    let hdr : Option (List String) :=
      if !useProvidedHeadernames && truthyList dictionary_list then
        some (((dictionary_list.getD []).headD []).map Prod.fst)
      else header_names
    match hdr with
    | none =>
        -- `for header in None` raises TypeError, caught at line 476:
        -- logged at error level and the call returns.
        (logMsg st .error invalidHeaderMsg, none)
    | some headers =>
        (addTableEmit st headers useDictionaryList alignment row_elements
          dictionary_list html_escape capitalize_headers, none)

/-- `MARKDOWN_INLINE_CODE_HL`.  Modelled from the spec: the `syntax`
module of the repository is absent from `src/`; the spec describes inline
code as "code delimited by backticks", so the delimiter is a single
backtick. -/
def INLINE_CODE_HIGHLIGHT : String := "\x60"

/-- `MarkdownGenerator.addInlineCodeBlock` (lines 353-375): wraps `text`
in the inline-code delimiter; when `write` it is emitted through
`writeText` (HTML-escaped when `escape_html`, since `writeText` escapes by
default) and nothing is returned; otherwise the string is returned. -/
def addInlineCodeBlock (st : MDState) (text : String) (escape_html : Bool)
    (write : Bool) : MDState × Option String :=
  let inline_hl := INLINE_CODE_HIGHLIGHT ++ text ++ INLINE_CODE_HIGHLIGHT
  if write then
    if escape_html then (writeText st inline_hl true, none)
    else (writeText st inline_hl false, none)
  else (st, some inline_hl)

/-- `MarkdownGenerator.addBoldedText` (lines 226-242): returns
`**text.strip()**`, optionally also writing it as a line. -/
def addBoldedText (st : MDState) (text : String) (write_as_line : Bool) :
    MDState × String :=
  let bolded := "**" ++ text.trim ++ "**"
  if write_as_line then (writeTextLine st (some bolded) true, bolded)
  else (st, bolded)

/-- Shared footnote counter and pending references.  Modelled from the
spec: the footnote-creation operation is absent from `src/` (only the
shared-counter initialisation at lines 115-121 is present: a dict
`{"value": 0}` passed by reference so nested builders share it, plus the
`pending_footnote_references` list).  Per the spec, the counter is
incremented each time a footnote reference is created and the entry
`(index, reference_text)` is appended. -/
structure FootnoteCtx where
  footnote_index : Nat
  pending_footnote_references : List (Nat × String)
deriving DecidableEq, Repr

/-- Modelled from the spec: creating one footnote reference increments the
shared counter and records the issued index with the reference text;
returns the updated context and the issued index. -/
def addFootnote (ctx : FootnoteCtx) (text : String) : FootnoteCtx × Nat :=
  let idx := ctx.footnote_index + 1
  (⟨idx, ctx.pending_footnote_references ++ [(idx, text)]⟩, idx)

/-- Issue a sequence of footnote references through the shared counter
(possibly from several nested builder instances, which all mutate the same
counter by reference); returns the final context and the issued indices in
creation order. -/
def issueFootnotes (ctx : FootnoteCtx) : List String → FootnoteCtx × List Nat
  | [] => (ctx, [])
  | t :: ts =>
      let p := addFootnote ctx t
      let q := issueFootnotes p.1 ts
      (q.1, p.2 :: q.2)

/-! ### Helper lemmas: append-only buffer behaviour -/

/-- Number of warning-level log records. -/
def countWarn (st : MDState) : Nat :=
  (st.logs.filter fun e => e.1 == LogLevel.warning).length

theorem buf_append_trans {s1 s2 s3 : MDState}
    (h1 : ∃ t, s2.document_data_array = s1.document_data_array ++ t)
    (h2 : ∃ t, s3.document_data_array = s2.document_data_array ++ t) :
    ∃ t, s3.document_data_array = s1.document_data_array ++ t := by
  obtain ⟨t1, h1⟩ := h1
  obtain ⟨t2, h2⟩ := h2
  exact ⟨t1 ++ t2, by rw [h2, h1, List.append_assoc]⟩

theorem buf_append_refl (s : MDState) :
    ∃ t, s.document_data_array = s.document_data_array ++ t :=
  ⟨[], by simp⟩

theorem writeText_buf_append (st : MDState) (t : String) (e : Bool) :
    ∃ tl, (writeText st t e).document_data_array = st.document_data_array ++ tl := by
  cases e <;> exact ⟨_, rfl⟩

theorem writeTextLine_buf_append (st : MDState) (t : Option String) (e : Bool) :
    ∃ tl, (writeTextLine st t e).document_data_array = st.document_data_array ++ tl := by
  cases t with
  | none => exact ⟨_, rfl⟩
  | some s => cases e <;> exact ⟨_, rfl⟩

theorem logMsg_buf (st : MDState) (l : LogLevel) (m : String) :
    (logMsg st l m).document_data_array = st.document_data_array := rfl

theorem logMsg_buf_append (st : MDState) (l : LogLevel) (m : String) :
    ∃ tl, (logMsg st l m).document_data_array = st.document_data_array ++ tl :=
  ⟨[], by simp [logMsg]⟩

theorem foldl_buf_append {β : Type} (f : MDState → β → MDState)
    (hf : ∀ st b, ∃ tl, (f st b).document_data_array = st.document_data_array ++ tl)
    (l : List β) :
    ∀ st : MDState, ∃ tl, (l.foldl f st).document_data_array = st.document_data_array ++ tl := by
  induction l with
  | nil => exact fun st => buf_append_refl st
  | cons b bs ih =>
      exact fun st => buf_append_trans (hf st b) (ih (f st b))

theorem writeCell_buf_append (st : MDState) (he : Bool) (c : Cell) :
    ∃ tl, (writeCell st he c).document_data_array = st.document_data_array ++ tl := by
  cases c with
  | scalar s => exact writeText_buf_append st _ he
  | listVal items =>
      exact buf_append_trans (writeText_buf_append st "| " true)
        (foldl_buf_append _
          (fun st b => buf_append_trans (writeText_buf_append st b true)
            (writeText_buf_append _ "<br> " false)) items _)

theorem writeRows_buf_append (st : MDState) (n : Nat) (he : Bool)
    (rows : List (List Cell)) :
    ∃ tl, (writeRows st n he rows).document_data_array = st.document_data_array ++ tl := by
  refine foldl_buf_append _ (fun st row => ?_) rows st
  by_cases h : row.length > n
  · rw [if_pos h]
    exact logMsg_buf_append st .error rowTooLongMsg
  · rw [if_neg h]
    exact buf_append_trans
      (foldl_buf_append _ (fun a c => writeCell_buf_append a he c) row st)
      (writeTextLine_buf_append _ (some "|") true)

theorem writeDictRows_buf_append (st : MDState) (he : Bool) (records : List Record) :
    ∃ tl, (writeDictRows st he records).document_data_array = st.document_data_array ++ tl := by
  refine foldl_buf_append _ (fun st row => ?_) records st
  exact buf_append_trans
    (foldl_buf_append _ (fun a kv => writeCell_buf_append a he kv.2) row st)
    (writeTextLine_buf_append _ (some "|") true)

theorem emitHeaderCells_buf_append (st : MDState) (hs : List String) (ch : Bool) :
    ∃ tl, (emitHeaderCells st hs ch).document_data_array
        = st.document_data_array ++ tl := by
  refine foldl_buf_append _ (fun acc h => ?_) hs st
  by_cases hc : ch = true
  · rw [if_pos hc]; exact writeText_buf_append acc _ true
  · rw [if_neg hc]; exact writeText_buf_append acc _ true

theorem emitSeparator_buf_append (st : MDState) (a : String) (n : Nat) :
    ∃ tl, (emitSeparator st a n).document_data_array
        = st.document_data_array ++ tl := by
  unfold emitSeparator
  split
  · exact writeTextLine_buf_append _ _ true
  · split
    · exact writeTextLine_buf_append _ _ true
    · split
      · exact writeTextLine_buf_append _ _ true
      · exact buf_append_trans (logMsg_buf_append _ .warning invalidAlignmentMsg)
          (writeTextLine_buf_append _ _ true)

theorem emitBody_buf_append (st : MDState) (u : Bool) (n : Nat)
    (re : Option (List (List Cell))) (dl : Option (List Record)) (he : Bool) :
    ∃ tl, (emitBody st u n re dl he).document_data_array
        = st.document_data_array ++ tl := by
  unfold emitBody
  split
  · exact writeRows_buf_append _ _ he _
  · exact writeDictRows_buf_append _ he _

theorem addTableEmit_buf_append (st : MDState) (hs : List String) (u : Bool)
    (a : String) (re : Option (List (List Cell))) (dl : Option (List Record))
    (he ch : Bool) :
    ∃ tl, (addTableEmit st hs u a re dl he ch).document_data_array
        = st.document_data_array ++ tl := by
  unfold addTableEmit
  exact buf_append_trans
    (buf_append_trans
      (buf_append_trans
        (buf_append_trans (emitHeaderCells_buf_append st hs ch)
          (writeTextLine_buf_append _ (some "|") true))
        (emitSeparator_buf_append _ a hs.length))
      (emitBody_buf_append _ u hs.length re dl he))
    (writeTextLine_buf_append _ none true)

/-! ### Helper lemmas: log behaviour and buffer congruence -/

theorem writeText_logs (st : MDState) (t : String) (e : Bool) :
    (writeText st t e).logs = st.logs := by
  cases e <;> rfl

theorem writeTextLine_logs (st : MDState) (t : Option String) (e : Bool) :
    (writeTextLine st t e).logs = st.logs := by
  cases t with
  | none => rfl
  | some s => cases e <;> rfl

theorem foldl_logs {β : Type} (f : MDState → β → MDState)
    (hf : ∀ st b, (f st b).logs = st.logs) (l : List β) :
    ∀ st : MDState, (l.foldl f st).logs = st.logs := by
  induction l with
  | nil => intro st; rfl
  | cons b bs ih => intro st; rw [List.foldl_cons, ih, hf]

theorem writeCell_logs (st : MDState) (he : Bool) (c : Cell) :
    (writeCell st he c).logs = st.logs := by
  cases c with
  | scalar s => exact writeText_logs st _ he
  | listVal items =>
      show (items.foldl _ (writeText st "| " true)).logs = st.logs
      rw [foldl_logs _ (fun st b => by rw [writeText_logs, writeText_logs]) items,
        writeText_logs]

theorem rowFold_logs (st : MDState) (he : Bool) (row : List Cell) :
    (row.foldl (fun a c => writeCell a he c) st).logs = st.logs :=
  foldl_logs _ (fun st c => writeCell_logs st he c) row st

theorem writeDictRows_logs (st : MDState) (he : Bool) (records : List Record) :
    (writeDictRows st he records).logs = st.logs := by
  refine foldl_logs _ (fun st row => ?_) records st
  rw [writeTextLine_logs,
    foldl_logs _ (fun st kv => writeCell_logs st he kv.2) row]

theorem emitHeaderCells_logs (st : MDState) (hs : List String) (ch : Bool) :
    (emitHeaderCells st hs ch).logs = st.logs := by
  refine foldl_logs _ (fun st h => ?_) hs st
  by_cases hc : ch = true
  · rw [if_pos hc, writeText_logs]
  · rw [if_neg hc, writeText_logs]

theorem countWarn_logMsg (st : MDState) (l : LogLevel) (m : String) :
    countWarn (logMsg st l m)
      = countWarn st + (if l = LogLevel.warning then 1 else 0) := by
  cases l <;> simp [countWarn, logMsg, List.filter_append]

theorem countWarn_of_logs_eq {s1 s2 : MDState} (h : s1.logs = s2.logs) :
    countWarn s1 = countWarn s2 := by
  rw [countWarn, countWarn, h]

theorem countWarn_writeRows (st : MDState) (n : Nat) (he : Bool)
    (rows : List (List Cell)) :
    countWarn (writeRows st n he rows) = countWarn st := by
  induction rows generalizing st with
  | nil => rfl
  | cons row rows ih =>
      show countWarn (writeRows _ n he rows) = _
      rw [ih]
      show countWarn (if row.length > n then logMsg st .error rowTooLongMsg
        else writeTextLine (row.foldl (fun a c => writeCell a he c) st)
          (some "|") true) = countWarn st
      by_cases h : row.length > n
      · rw [if_pos h, countWarn_logMsg]
        simp
      · rw [if_neg h]
        refine countWarn_of_logs_eq ?_
        rw [writeTextLine_logs, rowFold_logs]

/-- The buffer a state-transforming emission step appends depends only on
its non-state arguments, never on the incoming logs: congruence of the
buffer under equal incoming buffers. -/
theorem writeText_buf_cong {s1 s2 : MDState}
    (h : s1.document_data_array = s2.document_data_array) (t : String) (e : Bool) :
    (writeText s1 t e).document_data_array
      = (writeText s2 t e).document_data_array := by
  cases e <;> simp [writeText, h]

theorem writeTextLine_buf_cong {s1 s2 : MDState}
    (h : s1.document_data_array = s2.document_data_array) (t : Option String)
    (e : Bool) :
    (writeTextLine s1 t e).document_data_array
      = (writeTextLine s2 t e).document_data_array := by
  cases t with
  | none => simp [writeTextLine, h]
  | some s => cases e <;> simp [writeTextLine, h]

theorem foldl_buf_cong {β : Type} (f : MDState → β → MDState)
    (hf : ∀ (a b : MDState) (x : β), a.document_data_array = b.document_data_array →
        (f a x).document_data_array = (f b x).document_data_array)
    (l : List β) :
    ∀ {s1 s2 : MDState}, s1.document_data_array = s2.document_data_array →
      (l.foldl f s1).document_data_array = (l.foldl f s2).document_data_array := by
  induction l with
  | nil => exact fun h => h
  | cons x xs ih => exact fun h => ih (hf _ _ x h)

theorem writeCell_buf_cong {s1 s2 : MDState}
    (h : s1.document_data_array = s2.document_data_array) (he : Bool) (c : Cell) :
    (writeCell s1 he c).document_data_array
      = (writeCell s2 he c).document_data_array := by
  cases c with
  | scalar s => exact writeText_buf_cong h _ he
  | listVal items =>
      exact foldl_buf_cong _
        (fun a b item hab =>
          writeText_buf_cong (writeText_buf_cong hab item true) "<br> " false)
        items (writeText_buf_cong h "| " true)

theorem writeRows_buf_cong {s1 s2 : MDState}
    (h : s1.document_data_array = s2.document_data_array) (n : Nat) (he : Bool)
    (rows : List (List Cell)) :
    (writeRows s1 n he rows).document_data_array
      = (writeRows s2 n he rows).document_data_array := by
  refine foldl_buf_cong _ (fun a b row hab => ?_) rows h
  by_cases hr : row.length > n
  · rw [if_pos hr, if_pos hr, logMsg_buf, logMsg_buf]
    exact hab
  · rw [if_neg hr, if_neg hr]
    exact writeTextLine_buf_cong
      (foldl_buf_cong _ (fun a b c hab2 => writeCell_buf_cong hab2 he c) row hab)
      (some "|") true

theorem writeDictRows_buf_cong {s1 s2 : MDState}
    (h : s1.document_data_array = s2.document_data_array) (he : Bool)
    (records : List Record) :
    (writeDictRows s1 he records).document_data_array
      = (writeDictRows s2 he records).document_data_array := by
  refine foldl_buf_cong _ (fun a b row hab => ?_) records h
  exact writeTextLine_buf_cong
    (foldl_buf_cong _ (fun a b kv hab2 => writeCell_buf_cong hab2 he kv.2) row hab)
    (some "|") true

theorem emitBody_buf_cong {s1 s2 : MDState}
    (h : s1.document_data_array = s2.document_data_array) (u : Bool) (n : Nat)
    (re : Option (List (List Cell))) (dl : Option (List Record)) (he : Bool) :
    (emitBody s1 u n re dl he).document_data_array
      = (emitBody s2 u n re dl he).document_data_array := by
  unfold emitBody
  split
  · exact writeRows_buf_cong h n he _
  · exact writeDictRows_buf_cong h he _

theorem emitSeparator_invalid (st : MDState) (a : String) (n : Nat)
    (h1 : a ≠ "left") (h2 : a ≠ "center") (h3 : a ≠ "right") :
    emitSeparator st a n
      = writeTextLine (logMsg st .warning invalidAlignmentMsg)
          (some ("|" ++ repeatStr ":---:|" n)) true := by
  unfold emitSeparator
  rw [if_neg h1, if_neg h2, if_neg h3]

theorem emitSeparator_center (st : MDState) (n : Nat) :
    emitSeparator st "center" n
      = writeTextLine st (some ("|" ++ repeatStr ":---:|" n)) true := by
  unfold emitSeparator
  rw [if_neg (by decide : ¬("center" = "left")), if_pos rfl]

theorem countWarn_emitBody (st : MDState) (u : Bool) (n : Nat)
    (re : Option (List (List Cell))) (dl : Option (List Record)) (he : Bool) :
    countWarn (emitBody st u n re dl he) = countWarn st := by
  unfold emitBody
  split
  · exact countWarn_writeRows st n he _
  · exact countWarn_of_logs_eq (writeDictRows_logs st he _)

/-- Core of the alignment-fallback property, at the emission phase: an
unrecognized alignment value yields exactly the buffer of `"center"` and
exactly one extra warning-level log record; `"center"` itself adds no
warning. -/
theorem addTableEmit_invalid_alignment (st : MDState) (hs : List String)
    (u : Bool) (a : String) (re : Option (List (List Cell)))
    (dl : Option (List Record)) (he ch : Bool)
    (h1 : a ≠ "left") (h2 : a ≠ "center") (h3 : a ≠ "right") :
    (addTableEmit st hs u a re dl he ch).document_data_array
      = (addTableEmit st hs u "center" re dl he ch).document_data_array
    ∧ countWarn (addTableEmit st hs u a re dl he ch) = countWarn st + 1
    ∧ countWarn (addTableEmit st hs u "center" re dl he ch) = countWarn st := by
  unfold addTableEmit
  rw [emitSeparator_invalid _ a _ h1 h2 h3, emitSeparator_center]
  have hH : countWarn (writeTextLine (emitHeaderCells st hs ch) (some "|") true)
      = countWarn st :=
    (countWarn_of_logs_eq (writeTextLine_logs _ (some "|") true)).trans
      (countWarn_of_logs_eq (emitHeaderCells_logs st hs ch))
  refine ⟨?_, ?_, ?_⟩
  · refine writeTextLine_buf_cong ?_ none true
    refine emitBody_buf_cong ?_ u hs.length re dl he
    exact writeTextLine_buf_cong (logMsg_buf _ .warning invalidAlignmentMsg) _ true
  · rw [countWarn_of_logs_eq (writeTextLine_logs _ none true),
      countWarn_emitBody,
      countWarn_of_logs_eq (writeTextLine_logs _ _ true),
      countWarn_logMsg, hH]
    simp
  · rw [countWarn_of_logs_eq (writeTextLine_logs _ none true),
      countWarn_emitBody,
      countWarn_of_logs_eq (writeTextLine_logs _ _ true), hH]

theorem listcell_foldl_buf (items : List String) :
    ∀ st : MDState,
      (items.foldl
          (fun acc item => writeText (writeText acc item true) "<br> " false)
          st).document_data_array
        = st.document_data_array
            ++ items.flatMap (fun i => [escape i, "<br> "]) := by
  induction items with
  | nil => intro st; simp
  | cons i is ih =>
      intro st
      rw [List.foldl_cons, ih]
      simp [writeText, List.append_assoc]

/-- A list-valued cell appends exactly one `"| "` cell opener and then,
for each item, the escaped item followed by the raw separator `"<br> "`,
regardless of the caller's `html_escape` flag. -/
theorem writeCell_listVal_buf (st : MDState) (he : Bool) (items : List String) :
    (writeCell st he (Cell.listVal items)).document_data_array
      = st.document_data_array
          ++ "| " :: items.flatMap (fun i => [escape i, "<br> "]) := by
  show (items.foldl _ (writeText st "| " true)).document_data_array = _
  rw [listcell_foldl_buf]
  have h : escape "| " = "| " := rfl
  simp [writeText, h]

/-- State of an `addTable` call after the parameter-validation logging and
the leading blank line, just before the header names are iterated (lines
436-459); it does not depend on the alignment argument. -/
def preState (st : MDState) (hn : Option (List String))
    (re : Option (List (List Cell))) (dl : Option (List Record)) : MDState :=
  writeTextLine
    (if truthyList hn then
      logMsg (if truthyList re && truthyList dl then
          logMsg st .debug bothProvidedMsg else st) .debug headersProvidedMsg
    else
      logMsg (if truthyList re && truthyList dl then
          logMsg st .debug bothProvidedMsg else st) .debug noHeaderNamesMsg)
    none true

theorem countWarn_preState (st : MDState) (hn : Option (List String))
    (re : Option (List (List Cell))) (dl : Option (List Record)) :
    countWarn (preState st hn re dl) = countWarn st := by
  unfold preState
  rw [countWarn_of_logs_eq (writeTextLine_logs _ none true)]
  have hin : countWarn (if truthyList re && truthyList dl then
      logMsg st .debug bothProvidedMsg else st) = countWarn st := by
    split
    · rw [countWarn_logMsg]; simp
    · rfl
  split <;> rw [countWarn_logMsg, hin] <;> simp

/-- When at least one table input is present and the header names resolve
to a list, `addTable` is the emission phase applied to the pre-state, and
no exception is raised. -/
theorem addTable_eq_emit (st : MDState) (hn : Option (List String))
    (re : Option (List (List Cell))) (a : String) (dl : Option (List Record))
    (he ch : Bool) (hraise : (re.isNone && dl.isNone) = false) (hs : List String)
    (hhs : (if !truthyList hn && truthyList dl then
        some (((dl.getD []).headD []).map Prod.fst) else hn) = some hs) :
    addTable st hn re a dl he ch
      = (addTableEmit (preState st hn re dl) hs re.isNone a re dl he ch,
         none) := by
  unfold addTable preState
  rw [hraise]
  simp only [Bool.false_eq_true, if_false]
  rw [hhs]

/-- When at least one table input is present but the header names do not
resolve to a list, `addTable` aborts with an error-level log record. -/
theorem addTable_eq_abort (st : MDState) (hn : Option (List String))
    (re : Option (List (List Cell))) (a : String) (dl : Option (List Record))
    (he ch : Bool) (hraise : (re.isNone && dl.isNone) = false)
    (hhs : (if !truthyList hn && truthyList dl then
        some (((dl.getD []).headD []).map Prod.fst) else hn) = none) :
    addTable st hn re a dl he ch
      = (logMsg (preState st hn re dl) .error invalidHeaderMsg, none) := by
  unfold addTable preState
  rw [hraise]
  simp only [Bool.false_eq_true, if_false]
  rw [hhs]

theorem preState_buf_append (st : MDState) (hn : Option (List String))
    (re : Option (List (List Cell))) (dl : Option (List Record)) :
    ∃ tl, (preState st hn re dl).document_data_array
        = st.document_data_array ++ tl := by
  unfold preState
  refine buf_append_trans ?_ (writeTextLine_buf_append _ none true)
  have hdbg : ∃ tl,
      (if truthyList re && truthyList dl then logMsg st .debug bothProvidedMsg
        else st).document_data_array = st.document_data_array ++ tl := by
    split
    · exact logMsg_buf_append st .debug bothProvidedMsg
    · exact buf_append_refl st
  split
  · exact buf_append_trans hdbg (logMsg_buf_append _ .debug headersProvidedMsg)
  · exact buf_append_trans hdbg (logMsg_buf_append _ .debug noHeaderNamesMsg)

/-- `addTable` appends fragments in every branch: general append-only
lemma. -/
theorem addTable_buf_append (st : MDState) (hn : Option (List String))
    (re : Option (List (List Cell))) (a : String) (dl : Option (List Record))
    (he ch : Bool) :
    ∃ tl, (addTable st hn re a dl he ch).1.document_data_array
        = st.document_data_array ++ tl := by
  by_cases hraise : (re.isNone && dl.isNone) = true
  · unfold addTable
    rw [if_pos hraise]
    exact logMsg_buf_append st .warning invalidParamsMsg
  · have hraise' : (re.isNone && dl.isNone) = false := by
      cases h : (re.isNone && dl.isNone)
      · rfl
      · exact absurd h hraise
    cases hhs : (if !truthyList hn && truthyList dl then
        some (((dl.getD []).headD []).map Prod.fst) else hn) with
    | none =>
        rw [addTable_eq_abort st hn re a dl he ch hraise' hhs]
        exact buf_append_trans (preState_buf_append st hn re dl)
          (logMsg_buf_append _ .error invalidHeaderMsg)
    | some hs =>
        rw [addTable_eq_emit st hn re a dl he ch hraise' hs hhs]
        exact buf_append_trans (preState_buf_append st hn re dl)
          (addTableEmit_buf_append _ hs re.isNone a re dl he ch)

/-!
### Claim theorems
-/

/-- C1 (code bug witness): with both `row_elements` and `dictionary_list`
supplied and no explicit header names, the header row is taken from the
first record's keys (`a`, `b`) but the body row is rendered from
`row_elements` (`| 1 | 2 |`), not from the dictionary values (`3`, `4`) —
`useDictionaryList` is never set when `row_elements` is non-`None`,
contradicting the docstring "If both row_elements and dictionary_list is
provided, dictionary_list is used by default". -/
theorem addTable_both_inputs_body_from_rows :
    (addTable ⟨[], []⟩ none (some [[Cell.scalar "1", Cell.scalar "2"]]) "center"
        (some [[("a", Cell.scalar "3"), ("b", Cell.scalar "4")]]) true
        false).1.document_data_array
      = ["  \n", "| a ", "| b ", "|  \n", "|:---:|:---:|  \n", "| 1 ", "| 2 ",
         "|  \n", "  \n"]
    ∧ "| 3 " ∉ (addTable ⟨[], []⟩ none
        (some [[Cell.scalar "1", Cell.scalar "2"]]) "center"
        (some [[("a", Cell.scalar "3"), ("b", Cell.scalar "4")]]) true
        false).1.document_data_array := by
  constructor
  · decide
  · decide

/-- C2: `addTable` raises the missing-input `TypeError` exactly when both
`row_elements` and `dictionary_list` are `None`, and in that case nothing
has been appended to the document buffer. -/
theorem addTable_raises_iff_both_missing (st : MDState)
    (hn : Option (List String)) (re : Option (List (List Cell))) (a : String)
    (dl : Option (List Record)) (he ch : Bool) :
    ((addTable st hn re a dl he ch).2.isSome ↔ re = none ∧ dl = none)
    ∧ (addTable st hn none a none he ch).1.document_data_array
        = st.document_data_array := by
  constructor
  · cases re <;> cases dl <;> simp [addTable] <;> split <;> simp
  · rfl

/-- C3 counterexample: a call whose header-name input cannot be iterated
(`header_names = None` with no dictionary to take keys from) does NOT
raise: the `TypeError` from the header loop is caught, logged at error
level, and the call returns normally. -/
theorem addTable_bad_headers_not_raised_cex :
    (addTable ⟨[], []⟩ none (some [[Cell.scalar "1"]]) "center" none true
        false).2 = none
    ∧ (addTable ⟨[], []⟩ none (some [[Cell.scalar "1"]]) "center" none true
        false).1.logs
      = [(LogLevel.debug, noHeaderNamesMsg), (LogLevel.error, invalidHeaderMsg)] := by
  constructor
  · rfl
  · decide

/-- C3 (amended): for every call whose header-name input cannot be
iterated (`header_names = None` and no truthy `dictionary_list` to derive
keys from), `addTable` logs an error-level diagnostic and aborts the table
emission after the leading blank line, raising nothing. -/
theorem addTable_bad_headers_logged_abort (st : MDState)
    (re : Option (List (List Cell))) (a : String) (dl : Option (List Record))
    (he ch : Bool) (hre : re.isSome) (hdl : truthyList dl = false) :
    (addTable st none re a dl he ch).2 = none
    ∧ (addTable st none re a dl he ch).1.document_data_array
        = st.document_data_array ++ ["  " ++ linesep]
    ∧ (addTable st none re a dl he ch).1.logs
        = st.logs ++ [(LogLevel.debug, noHeaderNamesMsg),
                      (LogLevel.error, invalidHeaderMsg)] := by
  obtain ⟨rs, rfl⟩ := Option.isSome_iff_exists.mp hre
  have hraise : (((some rs : Option (List (List Cell))).isNone) && dl.isNone)
      = false := rfl
  have hhs : (if !truthyList (none : Option (List String)) && truthyList dl then
      some (((dl.getD []).headD []).map Prod.fst)
    else (none : Option (List String))) = none := by
    rw [hdl]
    simp
  rw [addTable_eq_abort st none (some rs) a dl he ch hraise hhs]
  have hpre : preState st none (some rs) dl
      = writeTextLine (logMsg st .debug noHeaderNamesMsg) none true := by
    unfold preState
    rw [hdl, Bool.and_false]
    simp [truthyList]
  rw [hpre]
  refine ⟨rfl, by simp [logMsg, writeTextLine], by simp [logMsg, writeTextLine]⟩

/-- C3 witness. -/
theorem addTable_bad_headers_logged_abort_witness :
    (addTable ⟨[], []⟩ none (some [[Cell.scalar "9"]]) "right" none false
        true).2 = none :=
  (addTable_bad_headers_logged_abort ⟨[], []⟩ (some [[Cell.scalar "9"]])
    "right" none false true rfl rfl).1

/-- C4: in row-oriented mode a row with more elements than there are
header names is skipped entirely with one error-level log record and the
remaining rows proceed; with headers `["x","y"]` and rows
`[[1,2],[3,4,5]]` exactly one body row (`| 1 | 2 |`) is emitted, one error
is logged and no exception propagates. -/
theorem addTable_row_too_long_skipped (st : MDState) (n : Nat) (he : Bool)
    (row : List Cell) (rows : List (List Cell)) (h : row.length > n) :
    writeRows st n he (row :: rows)
        = writeRows (logMsg st .error rowTooLongMsg) n he rows
    ∧ addTable ⟨[], []⟩ (some ["x", "y"])
        (some [[Cell.scalar "1", Cell.scalar "2"],
               [Cell.scalar "3", Cell.scalar "4", Cell.scalar "5"]])
        "center" none true false
      = (⟨["  \n", "| x ", "| y ", "|  \n", "|:---:|:---:|  \n", "| 1 ",
           "| 2 ", "|  \n", "  \n"],
          [(LogLevel.debug, headersProvidedMsg),
           (LogLevel.error, rowTooLongMsg)]⟩, none) := by
  constructor
  · simp only [writeRows, List.foldl_cons]
    rw [if_pos h]
  · decide

/-- C4 witness. -/
theorem addTable_row_too_long_skipped_witness :
    writeRows ⟨[], []⟩ 0 true [[Cell.scalar "z"]]
      = writeRows (logMsg ⟨[], []⟩ LogLevel.error rowTooLongMsg) 0 true [] :=
  (addTable_row_too_long_skipped ⟨[], []⟩ 0 true [Cell.scalar "z"] []
    (by decide)).1

/-- C5 counterexample: a call with an alignment value outside
`{left, center, right}` whose header-name input aborts the call logs NO
warning-level diagnostic at all (and emits no separator row), so the
claim's "exactly one warning-level diagnostic is logged" fails for this
call. -/
theorem addTable_invalid_alignment_no_warning_cex :
    countWarn (addTable ⟨[], []⟩ none (some [[Cell.scalar "1"]]) "justify"
        none true false).1 = 0
    ∧ (addTable ⟨[], []⟩ none (some [[Cell.scalar "1"]]) "justify" none true
        false).1.document_data_array = ["  \n"]
    ∧ ¬ ("justify" = "left" ∨ "justify" = "center" ∨ "justify" = "right") := by
  refine ⟨by decide, by decide, by decide⟩

/-- C5 (amended): for every `addTable` call that reaches separator-row
emission (at least one table input present and header names resolvable),
an alignment value outside `{left, center, right}` produces exactly the
document buffer of `alignment = "center"`, raises nothing, and logs
exactly one more warning-level diagnostic than was present before the
call, while the `"center"` call logs none. -/
theorem addTable_invalid_alignment_center_fallback (st : MDState)
    (hn : Option (List String)) (re : Option (List (List Cell))) (a : String)
    (dl : Option (List Record)) (he ch : Bool)
    (hin : re.isSome ∨ dl.isSome)
    (hhdr : hn.isSome ∨ truthyList dl = true)
    (h1 : a ≠ "left") (h2 : a ≠ "center") (h3 : a ≠ "right") :
    (addTable st hn re a dl he ch).1.document_data_array
      = (addTable st hn re "center" dl he ch).1.document_data_array
    ∧ (addTable st hn re a dl he ch).2 = none
    ∧ countWarn (addTable st hn re a dl he ch).1 = countWarn st + 1
    ∧ countWarn (addTable st hn re "center" dl he ch).1 = countWarn st := by
  have hraise : (re.isNone && dl.isNone) = false := by
    rcases hin with h | h
    · obtain ⟨x, rfl⟩ := Option.isSome_iff_exists.mp h
      rfl
    · obtain ⟨x, rfl⟩ := Option.isSome_iff_exists.mp h
      simp
  obtain ⟨hs, hhs⟩ : ∃ hs, (if !truthyList hn && truthyList dl then
      some (((dl.getD []).headD []).map Prod.fst) else hn) = some hs := by
    by_cases hc : (!truthyList hn && truthyList dl) = true
    · exact ⟨_, by rw [if_pos hc]⟩
    · have hsome : hn.isSome := by
        rcases hhdr with h | h
        · exact h
        · cases hn with
          | none => exact absurd (by rw [h]; rfl) hc
          | some l => rfl
      obtain ⟨l, rfl⟩ := Option.isSome_iff_exists.mp hsome
      exact ⟨l, by rw [if_neg hc]⟩
  rw [addTable_eq_emit st hn re a dl he ch hraise hs hhs,
    addTable_eq_emit st hn re "center" dl he ch hraise hs hhs]
  obtain ⟨hbuf, hw1, hw2⟩ := addTableEmit_invalid_alignment
    (preState st hn re dl) hs re.isNone a re dl he ch h1 h2 h3
  exact ⟨hbuf, rfl,
    by rw [hw1, countWarn_preState],
    by rw [hw2, countWarn_preState]⟩

/-- C5 witness. -/
theorem addTable_invalid_alignment_center_fallback_witness :
    (addTable ⟨[], []⟩ (some ["h"]) (some [[Cell.scalar "v"]]) "Justify" none
        true false).2 = none :=
  (addTable_invalid_alignment_center_fallback ⟨[], []⟩ (some ["h"])
    (some [[Cell.scalar "v"]]) "Justify" none true false (Or.inl rfl)
    (Or.inl rfl) (by decide) (by decide) (by decide)).2.1

/-- C6: in either table mode a list-valued cell is rendered as one single
cell: one `"| "` opener followed by the items each suffixed with the raw
line-break tag `"<br> "` (never HTML-escaped), e.g. `["a","b"]` gives a
single cell containing `a<br> b<br> `; concrete row-mode and
dictionary-mode calls show identical single-cell rendering. -/
theorem addTable_list_cell_single_cell (st : MDState) (he : Bool)
    (items : List String) :
    (writeCell st he (Cell.listVal items)).document_data_array
      = st.document_data_array
          ++ "| " :: items.flatMap (fun i => [escape i, "<br> "])
    ∧ String.join
        ((writeCell ⟨[], []⟩ he (Cell.listVal ["a", "b"])).document_data_array)
        = "| a<br> b<br> "
    ∧ (addTable ⟨[], []⟩ (some ["h"]) (some [[Cell.listVal ["a", "b"]]])
          "center" none true false).1.document_data_array
        = ["  \n", "| h ", "|  \n", "|:---:|  \n", "| ", "a", "<br> ", "b",
           "<br> ", "|  \n", "  \n"]
    ∧ (addTable ⟨[], []⟩ none none "center"
          (some [[("h", Cell.listVal ["a", "b"])]]) true
          false).1.document_data_array
        = ["  \n", "| h ", "|  \n", "|:---:|  \n", "| ", "a", "<br> ", "b",
           "<br> ", "|  \n", "  \n"] := by
  refine ⟨writeCell_listVal_buf st he items, ?_, by decide, by decide⟩
  cases he <;> decide

/-- C7 counterexample: `addInlineCodeBlock` does not escape embedded
backticks — on input `` a`b `` it returns `` `a`b` `` unchanged, not the
backslash-escaped form the claim requires (only `addCodeBlock` escapes
backticks). -/
theorem addInlineCodeBlock_no_backtick_escape_cex :
    (addInlineCodeBlock ⟨[], []⟩ "a\x60b" false false).2 = some "\x60a\x60b\x60"
    ∧ "\x60a\x60b\x60" ≠ "\x60a\\\x60b\x60" := by
  refine ⟨rfl, by decide⟩

/-- C7 (amended): `addInlineCodeBlock` wraps its input in the inline-code
backtick delimiter without escaping embedded backticks; the result is
returned when `write` is false (state untouched) and emitted immediately
(HTML-escaped per `escape_html`) when `write` is true. -/
theorem addInlineCodeBlock_delimits_without_escaping (st : MDState)
    (text : String) :
    addInlineCodeBlock st text true false
        = (st, some (INLINE_CODE_HIGHLIGHT ++ text ++ INLINE_CODE_HIGHLIGHT))
    ∧ addInlineCodeBlock st text false false
        = (st, some (INLINE_CODE_HIGHLIGHT ++ text ++ INLINE_CODE_HIGHLIGHT))
    ∧ (addInlineCodeBlock st text true true).1.document_data_array
        = st.document_data_array
            ++ [escape (INLINE_CODE_HIGHLIGHT ++ text ++ INLINE_CODE_HIGHLIGHT)]
    ∧ (addInlineCodeBlock st text false true).1.document_data_array
        = st.document_data_array
            ++ [INLINE_CODE_HIGHLIGHT ++ text ++ INLINE_CODE_HIGHLIGHT]
    ∧ (addInlineCodeBlock st text true true).2 = none
    ∧ (addInlineCodeBlock st text false true).2 = none :=
  ⟨rfl, rfl, rfl, rfl, rfl, rfl⟩

/-- C8: footnote indices issued through a shared counter are pairwise
strictly increasing in creation order (hence globally unique) and each
exceeds every index issued before the sequence started. -/
theorem footnote_indices_strictly_increasing (ctx : FootnoteCtx)
    (ts : List String) :
    List.Pairwise (· < ·) (issueFootnotes ctx ts).2
    ∧ ∀ i ∈ (issueFootnotes ctx ts).2, ctx.footnote_index < i := by
  induction ts generalizing ctx with
  | nil => exact ⟨List.Pairwise.nil, by intro i hi; cases hi⟩
  | cons t ts ih =>
      obtain ⟨hp, hgt⟩ := ih ⟨ctx.footnote_index + 1,
        ctx.pending_footnote_references ++ [(ctx.footnote_index + 1, t)]⟩
      refine ⟨List.Pairwise.cons (fun i hi => hgt i hi) hp, ?_⟩
      intro i hi
      rcases List.mem_cons.mp hi with h | h
      · rw [h]; exact Nat.lt_succ_self _
      · exact Nat.lt_trans (Nat.lt_succ_self _) (hgt i h)

/-- C9: every modelled emission operation only appends to the document
buffer — after any call (including an `addTable` call that aborts with a
logged error or raises the missing-input `TypeError`) the previous buffer
contents are an unchanged prefix of the new contents. -/
theorem emission_appends_only :
    (∀ (st : MDState) (t : String) (e : Bool),
        ∃ tl, (writeText st t e).document_data_array
            = st.document_data_array ++ tl)
    ∧ (∀ (st : MDState) (t : Option String) (e : Bool),
        ∃ tl, (writeTextLine st t e).document_data_array
            = st.document_data_array ++ tl)
    ∧ (∀ (st : MDState) (t : String) (w : Bool),
        ∃ tl, (addBoldedText st t w).1.document_data_array
            = st.document_data_array ++ tl)
    ∧ (∀ (st : MDState) (t : String) (e w : Bool),
        ∃ tl, (addInlineCodeBlock st t e w).1.document_data_array
            = st.document_data_array ++ tl)
    ∧ (∀ (st : MDState) (hn : Option (List String))
        (re : Option (List (List Cell))) (a : String)
        (dl : Option (List Record)) (he ch : Bool),
        ∃ tl, (addTable st hn re a dl he ch).1.document_data_array
            = st.document_data_array ++ tl) := by
  refine ⟨writeText_buf_append, writeTextLine_buf_append, ?_, ?_,
    addTable_buf_append⟩
  · intro st t w
    unfold addBoldedText
    split
    · exact writeTextLine_buf_append st _ true
    · exact buf_append_refl st
  · intro st t e w
    unfold addInlineCodeBlock
    split
    · split
      · exact writeText_buf_append st _ true
      · exact writeText_buf_append st _ false
    · exact buf_append_refl st

/-- C10: the items of a list-valued cell pass through HTML escaping
unconditionally (even with `html_escape = false`), while a scalar cell is
escaped only when the caller's flag is true; concretely `<i>` inside a
list cell comes out escaped even under `html_escape = false`. -/
theorem addTable_list_items_escaped_unconditionally (st : MDState)
    (items : List String) (s : String) :
    (writeCell st false (Cell.listVal items)).document_data_array
      = st.document_data_array
          ++ "| " :: items.flatMap (fun i => [escape i, "<br> "])
    ∧ (writeCell st false (Cell.scalar s)).document_data_array
        = st.document_data_array ++ ["| " ++ s ++ " "]
    ∧ (writeCell st true (Cell.scalar s)).document_data_array
        = st.document_data_array ++ [escape ("| " ++ s ++ " ")]
    ∧ (writeCell ⟨[], []⟩ false (Cell.listVal ["<i>"])).document_data_array
        = ["| ", "&lt;i&gt;", "<br> "] :=
  ⟨writeCell_listVal_buf st false items, rfl, rfl, by decide⟩
